import Mathlib

/-!
Shallow embedding of the dashboard route loader and the per-request
application-context builder of `apps/builder/app/routes/_ui.dashboard.tsx`
(route loader) together with the context module it is concatenated with
(`extractAuthFromRequest`, `createAuthorizationContext`,
`createUserPlanContext`, `createTrpcCache`, `createContext`).

External collaborators (the two authenticator services, the ORM token
lookup, the login-session bloom filter, the plan-features lookup, the
router classification utilities, the rpc callers and configuration) are
modelled as oracle fields on `Req` and `Env`: each field records the value
the external call would return for this request.  Thrown JavaScript errors
become `Except` errors carrying an inductive error value; `string | null |
undefined` becomes `Option String`.  Numbers that matter (`Math.min`
against `Number.MAX_SAFE_INTEGER`) are modelled as `Nat`.
-/

namespace Webstudio

/-- Session data returned by `authenticator.isAuthenticated` and
`builderAuthenticator.isAuthenticated`: an object with `userId` and
`createdAt` (or `null`, modelled by `Option` at the use site). -/
structure SessionData where
  userId : String
  createdAt : Nat
deriving Repr, DecidableEq

/-- Row selected by `prisma.authorizationToken.findUnique` for a token:
the nested `project { id, userId }`, where `userId` is nullable. -/
structure ProjectRow where
  id : String
  userId : Option String
deriving Repr, DecidableEq

/-- User object returned by `findAuthenticatedUser`. -/
structure User where
  id : String
deriving Repr, DecidableEq

/-- Plan / entitlement snapshot returned by the external
`getUserPlanFeatures` lookup; its contents are opaque to this layer, so it
is modelled as an uninterpreted string. -/
abbrev UserPlanFeatures := String

/-- Observable attributes of one incoming request, including the results
the external collaborator calls would produce for it. -/
structure Req where
  /-- Result of the `isCanvas request` classification predicate. -/
  canvasSurface : Bool
  /-- Result of the `isBuilder request` classification predicate. -/
  builderSurface : Bool
  /-- Result of the `isDashboard request` classification predicate. -/
  dashboardSurface : Bool
  /-- Value of `url.searchParams.get("authToken")`; `none` means the
  parameter is absent, `some ""` an empty value. -/
  queryAuthToken : Option String
  /-- Value of the `x-auth-token` request header. -/
  headerAuthToken : Option String
  /-- Value of the `Authorization` request header. -/
  authorizationHeader : Option String
  /-- Result of `builderAuthenticator.isAuthenticated request`. -/
  builderSession : Option SessionData
  /-- Result of `authenticator.isAuthenticated request`. -/
  genericSession : Option SessionData
  /-- Result of `findAuthenticatedUser request` in the loader. -/
  authenticatedUser : Option User
  /-- Value of `new URL(request.url).pathname`. -/
  pathname : String
  /-- Value of `parseBuilderUrl(request.url).projectId` (may be absent). -/
  parsedProjectId : Option String
  /-- Value of `parseBuilderUrl(request.url).sourceOrigin`. -/
  sourceOrigin : String
  /-- Whether `preventCrossOriginCookie request` passes (does not throw). -/
  crossOriginCookieOk : Bool
  /-- Whether `allowedDestinations request ["document", "empty"]` passes. -/
  destinationAllowed : Bool

/-- Configuration and external services consumed by the context builder
and the loader. -/
structure Env where
  /-- Shared secret `env.TRPC_SERVER_API_TOKEN`; `none` when unset. -/
  TRPC_SERVER_API_TOKEN : Option String
  /-- ORM lookup `prisma.authorizationToken.findUnique` keyed by token:
  `none` when no row matches. -/
  tokenLookup : String → Option ProjectRow
  /-- Membership answer of the login-session bloom filter read for this
  request (`readLoginSessionBloomFilter(request).has projectId`). -/
  bloomHas : String → Bool
  /-- External lookup `getUserPlanFeatures` keyed by user id. -/
  getUserPlanFeatures : String → UserPlanFeatures
  /-- Configured template project ids `env.PROJECT_TEMPLATES`. -/
  PROJECT_TEMPLATES : List String
  /-- Configured `env.PUBLISHER_HOST`. -/
  PUBLISHER_HOST : String
  /-- Configured `env.IMAGE_BASE_URL`. -/
  IMAGE_BASE_URL : String
  /-- Rpc call `dashboardProjectCaller(context).findMany { userId }`,
  returning the ids of the projects of that user. -/
  findMany : String → List String
  /-- Rpc call `dashboardProjectCaller(context).findManyByIds`. -/
  findManyByIds : List String → List String

/-- Errors thrown during auth extraction and authorization-context
construction. -/
inductive CtxError
  /-- Thrown for canvas requests: the error with message
  "Canvas requests cannot have authorization context". -/
  | canvasRequest
  /-- Thrown when `prisma.authorizationToken.findUnique` returns null:
  "Project owner cannot be found for token ...". -/
  | ownerNotFoundForToken (token : String)
  /-- Thrown when the resolved project has a null `userId`:
  "Project ... has null userId". -/
  | projectNullUserId (projectId : String)
deriving Repr, DecidableEq

/-- Classification predicate `isCanvas` from the router utilities. -/
def isCanvas (r : Req) : Bool := r.canvasSurface

/-- Classification predicate `isBuilder` from the router utilities. -/
def isBuilder (r : Req) : Bool := r.builderSurface

/-- Classification predicate `isDashboard` from the router utilities. -/
def isDashboard (r : Req) : Bool := r.dashboardSurface

/-- Result record of `extractAuthFromRequest`. -/
structure AuthExtract where
  authToken : Option String
  sessionData : Option SessionData
  isServiceCall : Bool
deriving Repr, DecidableEq

/-- `extractAuthFromRequest`: throws for canvas requests; otherwise
extracts the auth token as `searchParams.get("authToken") ??
headers.get("x-auth-token") ?? undefined`, the session data from the
builder or generic authenticator depending on the surface, and the
service-call flag as `headers.has("Authorization") &&
headers.get("Authorization") === env.TRPC_SERVER_API_TOKEN`. -/
def extractAuthFromRequest (env : Env) (request : Req) :
    Except CtxError AuthExtract :=
  if isCanvas request then
    .error .canvasRequest
  else
    .ok
      { authToken := request.queryAuthToken <|> request.headerAuthToken
        sessionData :=
          if isBuilder request then request.builderSession
          else request.genericSession
        isServiceCall :=
          request.authorizationHeader.isSome &&
            request.authorizationHeader == env.TRPC_SERVER_API_TOKEN }

/-- The authorization sub-context (`AppContext["authorization"]`). -/
structure AuthorizationContext where
  userId : Option String
  sessionCreatedAt : Option Nat
  authToken : Option String
  isServiceCall : Bool
  ownerId : Option String
  isLoggedInToBuilder : Option (String → Bool)

/-- Owner resolution inside `createAuthorizationContext`: `ownerId` starts
as `sessionData?.userId`; when `authToken != null` (note: the empty string
satisfies this) the token is resolved via the ORM, throwing when no row
matches or the project owner id is null, and otherwise overriding
`ownerId` with the project owner. -/
def resolveOwnerId (env : Env) (sessionData : Option SessionData)
    (authToken : Option String) : Except CtxError (Option String) :=
  match authToken with
  | none => .ok (sessionData.map SessionData.userId)
  | some token =>
    match env.tokenLookup token with
    | none => .error (.ownerNotFoundForToken token)
    | some project =>
      match project.userId with
      | none => .error (.projectNullUserId project.id)
      | some projectOwnerId => .ok (some projectOwnerId)

/-- Construction of the `isLoggedInToBuilder` capability closure: it is
first assigned the bloom-filter membership closure when the request is a
dashboard request with a session, then reassigned the exact
`parsedUrl.projectId === projectId` comparison when the request is a
builder request with a session, and stays undefined otherwise. -/
def mkIsLoggedInToBuilder (env : Env) (request : Req)
    (sessionData : Option SessionData) : Option (String → Bool) :=
  let afterDashboard : Option (String → Bool) :=
    if isDashboard request && sessionData.isSome then
      some fun projectId => env.bloomHas projectId
    else
      none
  if isBuilder request && sessionData.isSome then
    some fun projectId => request.parsedProjectId == some projectId
  else
    afterDashboard

/-- `createAuthorizationContext`: throws for canvas requests, extracts
auth data, resolves the owner id, builds the capability closure and
assembles the authorization context. -/
def createAuthorizationContext (env : Env) (request : Req) :
    Except CtxError AuthorizationContext :=
  if isCanvas request then
    .error .canvasRequest
  else
    match extractAuthFromRequest env request with
    | .error e => .error e
    | .ok ex =>
      match resolveOwnerId env ex.sessionData ex.authToken with
      | .error e => .error e
      | .ok ownerId =>
        .ok
          { userId := ex.sessionData.map SessionData.userId
            sessionCreatedAt := ex.sessionData.map SessionData.createdAt
            authToken := ex.authToken
            isServiceCall := ex.isServiceCall
            ownerId := ownerId
            isLoggedInToBuilder := mkIsLoggedInToBuilder env request ex.sessionData }

/-- The JavaScript constant `Number.MAX_SAFE_INTEGER`. -/
def maxSafeInteger : Nat := 9007199254740991

/-- State of the per-request `proceduresMaxAge` map of `createTrpcCache`,
as a total function from paths to the optionally stored age. -/
abbrev TrpcCache := String → Option Nat

/-- The fresh (empty) `proceduresMaxAge` map made by `createTrpcCache`. -/
def createTrpcCache : TrpcCache := fun _ => none

/-- `setMaxAge`: stores `Math.min(proceduresMaxAge.get(path) ??
Number.MAX_SAFE_INTEGER, value)` at `path`. -/
def setMaxAge (cache : TrpcCache) (path : String) (value : Nat) : TrpcCache :=
  fun q =>
    if q = path then some (Nat.min ((cache path).getD maxSafeInteger) value)
    else cache q

/-- `getMaxAge`: reads the stored age for a path. -/
def getMaxAge (cache : TrpcCache) (path : String) : Option Nat := cache path

/-- `createUserPlanContext`: `authorization.ownerId ? await
getUserPlanFeatures(authorization.ownerId) : undefined`.  JavaScript
string truthiness makes the empty string falsy, so an empty owner id also
yields `undefined`. -/
def createUserPlanContext (env : Env)
    (authorization : AuthorizationContext) : Option UserPlanFeatures :=
  match authorization.ownerId with
  | some ownerId =>
    if ownerId = "" then none else some (env.getUserPlanFeatures ownerId)
  | none => none

/-- The per-request `AppContext` aggregate.  The `domain`, `deployment`,
`entri` and `postgrest` sub-contexts are opaque handles to external
clients with no branching logic and are omitted from the embedding. -/
structure AppContext where
  authorization : AuthorizationContext
  userPlanFeatures : Option UserPlanFeatures
  trpcCache : TrpcCache

/-- `createContext`: builds the authorization sub-context (propagating its
errors), then the user-plan sub-context from it, and a fresh trpc cache. -/
def createContext (env : Env) (request : Req) : Except CtxError AppContext :=
  match createAuthorizationContext env request with
  | .error e => .error e
  | .ok authorization =>
    .ok
      { authorization := authorization
        userPlanFeatures := createUserPlanContext env authorization
        trpcCache := createTrpcCache }

/-- JSON payload returned by the dashboard loader on success (project
lists are represented by their ids). -/
structure DashboardPayload where
  user : User
  projects : List String
  projectTemplates : List String
  userPlanFeatures : UserPlanFeatures
  publisherHost : String
  imageBaseUrl : String
  origin : String
deriving Repr, DecidableEq

/-- Outcome of one run of the dashboard loader. -/
inductive LoaderResult
  /-- The 404 response for a request not classified as dashboard. -/
  | notFound
  /-- Abort raised by `preventCrossOriginCookie`. -/
  | crossOriginRejected
  /-- Abort raised by `allowedDestinations`. -/
  | destinationRejected
  /-- The thrown `redirect(loginPath({ returnTo }))`, carrying the
  `returnTo` query parameter value. -/
  | redirectLogin (returnTo : String)
  /-- An error propagated from `createContext`. -/
  | contextError (e : CtxError)
  /-- The thrown error "User plan features are not defined". -/
  | planFeaturesMissing
  /-- The `json({...})` success response. -/
  | success (payload : DashboardPayload)
deriving Repr, DecidableEq

/-- Externally visible effects the loader may perform after its guards. -/
inductive Effect
  /-- The `createContext request` call. -/
  | buildContext
  /-- The `findMany { userId }` project fetch. -/
  | fetchProjects
  /-- The `findManyByIds { projectIds }` template fetch. -/
  | fetchTemplates
deriving Repr, DecidableEq

/-- The dashboard route `loader`: 404 for non-dashboard requests, then the
cross-origin-cookie and destination guards, then the login redirect with
`returnTo = url.pathname` when no user is authenticated, then context
construction, the two project fetches, the plan-features presence check,
and finally the JSON payload.  The second component lists the effects
performed. -/
def loader (env : Env) (request : Req) : LoaderResult × List Effect :=
  if !isDashboard request then (.notFound, [])
  else if !request.crossOriginCookieOk then (.crossOriginRejected, [])
  else if !request.destinationAllowed then (.destinationRejected, [])
  else
    match request.authenticatedUser with
    | none => (.redirectLogin request.pathname, [])
    | some user =>
      match createContext env request with
      | .error e => (.contextError e, [.buildContext])
      | .ok context =>
        let projects := env.findMany user.id
        let projectTemplates := env.findManyByIds env.PROJECT_TEMPLATES
        match context.userPlanFeatures with
        | none =>
          (.planFeaturesMissing, [.buildContext, .fetchProjects, .fetchTemplates])
        | some userPlanFeatures =>
          (.success
            { user := user
              projects := projects
              projectTemplates := projectTemplates
              userPlanFeatures := userPlanFeatures
              publisherHost := env.PUBLISHER_HOST
              imageBaseUrl := env.IMAGE_BASE_URL
              origin := request.sourceOrigin },
           [.buildContext, .fetchProjects, .fetchTemplates])

/-! ### Sample inputs used by witnesses and counterexamples -/

/-- A sample environment: the shared secret is `"secret"`, the only
authorization token in the database is `"tok"`, owned by `"owner1"`. -/
def sampleEnv : Env :=
  { TRPC_SERVER_API_TOKEN := some "secret"
    tokenLookup := fun t =>
      if t = "tok" then some { id := "proj1", userId := some "owner1" } else none
    bloomHas := fun _ => false
    getUserPlanFeatures := fun u => "features-" ++ u
    PROJECT_TEMPLATES := ["tpl1"]
    PUBLISHER_HOST := "pub.example"
    IMAGE_BASE_URL := "img.example"
    findMany := fun _ => ["p1"]
    findManyByIds := fun ids => ids }

/-- A sample dashboard request with no credentials at all. -/
def baseReq : Req :=
  { canvasSurface := false
    builderSurface := false
    dashboardSurface := true
    queryAuthToken := none
    headerAuthToken := none
    authorizationHeader := none
    builderSession := none
    genericSession := none
    authenticatedUser := none
    pathname := "/dashboard"
    parsedProjectId := none
    sourceOrigin := "https://apps.example"
    crossOriginCookieOk := true
    destinationAllowed := true }

/-! ### Helper lemmas -/

/-- A successful auth extraction implies the request is not canvas. -/
theorem extract_ok_not_canvas {env : Env} {request : Req} {ex : AuthExtract}
    (h : extractAuthFromRequest env request = .ok ex) :
    isCanvas request = false := by
  cases hc : isCanvas request with
  | false => rfl
  | true => simp [extractAuthFromRequest, hc] at h

/-- Closed form of a successful auth extraction on a non-canvas request. -/
theorem extract_ok_eq (env : Env) (request : Req)
    (hc : isCanvas request = false) :
    extractAuthFromRequest env request =
      .ok
        { authToken := request.queryAuthToken <|> request.headerAuthToken
          sessionData :=
            if isBuilder request then request.builderSession
            else request.genericSession
          isServiceCall :=
            request.authorizationHeader.isSome &&
              request.authorizationHeader == env.TRPC_SERVER_API_TOKEN } := by
  simp [extractAuthFromRequest, hc]

/-- Inversion of a successful authorization-context construction. -/
theorem create_ok_inv {env : Env} {request : Req} {ctx : AuthorizationContext}
    (h : createAuthorizationContext env request = .ok ctx) :
    isCanvas request = false ∧
    ∃ ex ownerId,
      extractAuthFromRequest env request = .ok ex ∧
      resolveOwnerId env ex.sessionData ex.authToken = .ok ownerId ∧
      ctx =
        { userId := ex.sessionData.map SessionData.userId
          sessionCreatedAt := ex.sessionData.map SessionData.createdAt
          authToken := ex.authToken
          isServiceCall := ex.isServiceCall
          ownerId := ownerId
          isLoggedInToBuilder := mkIsLoggedInToBuilder env request ex.sessionData } := by
  cases hc : isCanvas request with
  | true => simp [createAuthorizationContext, hc] at h
  | false =>
    refine ⟨rfl, ?_⟩
    rw [createAuthorizationContext, if_neg (by simp [hc]),
      extract_ok_eq env request hc] at h
    dsimp only at h
    cases hres : resolveOwnerId env
        (if isBuilder request then request.builderSession
         else request.genericSession)
        (request.queryAuthToken <|> request.headerAuthToken) with
    | error e => rw [hres] at h; cases h
    | ok ownerId =>
      rw [hres] at h
      cases h
      exact ⟨_, ownerId, extract_ok_eq env request hc, hres, rfl⟩

/-! ### Claims -/

/-- C8: for every request classified as canvas, both
`extractAuthFromRequest` and `createAuthorizationContext` raise the
canvas-contract error and never return a value. -/
theorem C8_canvas_rejected (env : Env) (request : Req)
    (h : isCanvas request = true) :
    extractAuthFromRequest env request = .error .canvasRequest ∧
    createAuthorizationContext env request = .error .canvasRequest := by
  constructor <;> simp [extractAuthFromRequest, createAuthorizationContext, h]

/-- Witness for C8 at a concrete canvas request. -/
theorem C8_canvas_rejected_witness :
    extractAuthFromRequest sampleEnv
        { baseReq with canvasSurface := true, dashboardSurface := false } =
      .error .canvasRequest ∧
    createAuthorizationContext sampleEnv
        { baseReq with canvasSurface := true, dashboardSurface := false } =
      .error .canvasRequest :=
  C8_canvas_rejected sampleEnv
    { baseReq with canvasSurface := true, dashboardSurface := false } rfl

/-- C9: for every dashboard request passing the cross-origin and
destination guards but with no authenticated user, the loader throws a
redirect to the login path with `returnTo` equal to the request path and
performs no context construction or data fetch (empty effect list). -/
theorem C9_unauthenticated_redirect (env : Env) (request : Req)
    (hd : isDashboard request = true)
    (hco : request.crossOriginCookieOk = true)
    (hdest : request.destinationAllowed = true)
    (huser : request.authenticatedUser = none) :
    loader env request = (.redirectLogin request.pathname, []) := by
  simp [loader, hd, hco, hdest, huser]

/-- Witness for C9 at a concrete unauthenticated dashboard request. -/
theorem C9_unauthenticated_redirect_witness :
    loader sampleEnv baseReq = (.redirectLogin "/dashboard", []) :=
  C9_unauthenticated_redirect sampleEnv baseReq rfl rfl rfl rfl

/-- C3: for every non-canvas request, the extracted `isServiceCall` flag
is true iff the request carries an `Authorization` header whose value
equals the configured shared secret; in particular it is false for every
request when the secret is unset. -/
theorem C3_isServiceCall_iff_secret_match (env : Env) (request : Req)
    (hc : isCanvas request = false) :
    ∃ ex, extractAuthFromRequest env request = .ok ex ∧
      (ex.isServiceCall = true ↔
        ∃ secret, env.TRPC_SERVER_API_TOKEN = some secret ∧
          request.authorizationHeader = some secret) ∧
      (env.TRPC_SERVER_API_TOKEN = none → ex.isServiceCall = false) := by
  refine ⟨_, extract_ok_eq env request hc, ?_, ?_⟩
  · cases hh : request.authorizationHeader with
    | none => simp
    | some v =>
      cases ht : env.TRPC_SERVER_API_TOKEN with
      | none => simp
      | some secret =>
        simp only [Option.isSome_some, Bool.true_and, beq_iff_eq,
          Option.some.injEq]
        exact ⟨fun h => ⟨secret, rfl, h⟩, fun ⟨s, hs, hv⟩ => hv.trans hs.symm⟩
  · intro ht
    cases hh : request.authorizationHeader <;> simp [ht, hh]

/-- Witness for C3: a request whose `Authorization` header matches the
configured secret is a service call. -/
theorem C3_isServiceCall_witness :
    ∃ ex, extractAuthFromRequest sampleEnv
        { baseReq with authorizationHeader := some "secret" } = .ok ex ∧
      (ex.isServiceCall = true ↔
        ∃ secret, sampleEnv.TRPC_SERVER_API_TOKEN = some secret ∧
          ({ baseReq with
              authorizationHeader := some "secret" } : Req).authorizationHeader =
            some secret) ∧
      (sampleEnv.TRPC_SERVER_API_TOKEN = none → ex.isServiceCall = false) :=
  C3_isServiceCall_iff_secret_match sampleEnv
    { baseReq with authorizationHeader := some "secret" } rfl

/-- Concrete request for the C1 witness: session user differs from the
owner of the project the token resolves to. -/
def c1Req : Req :=
  { baseReq with
    queryAuthToken := some "tok"
    genericSession := some { userId := "session-user", createdAt := 5 } }

/-- C1: for every non-canvas request whose extracted auth token resolves
to a project with owner `ownerUser`, the returned authorization context
has `ownerId = ownerUser` while `userId` stays exactly the user id of the session, , unaffected by the token. -/
theorem C1_token_delegates_ownerId (env : Env) (request : Req)
    (ex : AuthExtract) (t : String) (project : ProjectRow) (ownerUser : String)
    (hex : extractAuthFromRequest env request = .ok ex)
    (htok : ex.authToken = some t)
    (hlook : env.tokenLookup t = some project)
    (howner : project.userId = some ownerUser) :
    ∃ ctx, createAuthorizationContext env request = .ok ctx ∧
      ctx.ownerId = some ownerUser ∧
      ctx.userId = ex.sessionData.map SessionData.userId := by
  have hc := extract_ok_not_canvas hex
  rw [createAuthorizationContext, if_neg (by simp [hc]), hex]
  dsimp only
  rw [htok]
  simp only [resolveOwnerId, hlook, howner]
  exact ⟨_, rfl, rfl, rfl⟩

/-- Witness for C1: the session user is `"session-user"` but the token
resolves to the project of `"owner1"`; the context keeps the session
`userId` and delegates `ownerId`. -/
theorem C1_token_delegates_ownerId_witness :
    ∃ ctx, createAuthorizationContext sampleEnv c1Req = .ok ctx ∧
      ctx.ownerId = some "owner1" ∧
      ctx.userId = some "session-user" := by
  obtain ⟨ctx, h1, h2, h3⟩ :=
    C1_token_delegates_ownerId sampleEnv c1Req _ "tok"
      { id := "proj1", userId := some "owner1" } "owner1" rfl rfl
      (by decide) rfl
  exact ⟨ctx, h1, h2, h3⟩

/-- C2: for every request carrying an auth token, when the token-to-
project lookup returns no row, or a project whose owner id is null,
authorization-context construction raises an error and never returns a
context. -/
theorem C2_invalid_token_errors (env : Env) (request : Req)
    (ex : AuthExtract) (t : String)
    (hex : extractAuthFromRequest env request = .ok ex)
    (htok : ex.authToken = some t)
    (hbad : env.tokenLookup t = none ∨
      ∃ project, env.tokenLookup t = some project ∧ project.userId = none) :
    ∃ e, createAuthorizationContext env request = .error e := by
  have hc := extract_ok_not_canvas hex
  rw [createAuthorizationContext, if_neg (by simp [hc]), hex]
  dsimp only
  rw [htok]
  rcases hbad with hnone | ⟨project, hsome, hnull⟩
  · simp only [resolveOwnerId, hnone]
    exact ⟨_, rfl⟩
  · simp only [resolveOwnerId, hsome, hnull]
    exact ⟨_, rfl⟩

/-- Witness for C2: a token absent from the database makes construction
fail. -/
theorem C2_invalid_token_errors_witness :
    ∃ e, createAuthorizationContext sampleEnv
        { baseReq with queryAuthToken := some "badtok" } = .error e :=
  C2_invalid_token_errors sampleEnv
    { baseReq with queryAuthToken := some "badtok" } _ "badtok" rfl rfl
    (Or.inl (by decide))

/-- Concrete request for the C4 witness: a builder request with a session
whose URL parses to project id `"proj-xyz"`. -/
def c4Req : Req :=
  { baseReq with
    builderSurface := true
    dashboardSurface := false
    builderSession := some { userId := "builder-user", createdAt := 1 }
    parsedProjectId := some "proj-xyz" }

/-- C4: for every builder-surface request with a logged-in session, the
constructed `isLoggedInToBuilder` capability answers true exactly on the
project id parsed from the request URL and false on every other id. -/
theorem C4_builder_capability_exact (env : Env) (request : Req)
    (sd : SessionData) (ctx : AuthorizationContext)
    (hb : isBuilder request = true)
    (hs : request.builderSession = some sd)
    (hctx : createAuthorizationContext env request = .ok ctx) :
    ∃ f, ctx.isLoggedInToBuilder = some f ∧
      ∀ X, (f X = true ↔ request.parsedProjectId = some X) := by
  obtain ⟨hc, ex, ownerId, hex, hres, hctxeq⟩ := create_ok_inv hctx
  have hsd : ex.sessionData = some sd := by
    rw [extract_ok_eq env request hc] at hex
    cases hex
    dsimp only
    rw [hb, if_pos rfl, hs]
  subst hctxeq
  refine ⟨fun projectId => request.parsedProjectId == some projectId, ?_, ?_⟩
  · dsimp only
    rw [mkIsLoggedInToBuilder, hsd]
    simp [hb]
  · intro X
    simp

/-- Witness for C4 at a concrete builder request. -/
theorem C4_builder_capability_exact_witness :
    ∃ ctx, createAuthorizationContext sampleEnv c4Req = .ok ctx ∧
      ∃ f, ctx.isLoggedInToBuilder = some f ∧
        ∀ X, (f X = true ↔ c4Req.parsedProjectId = some X) :=
  ⟨_, rfl,
    C4_builder_capability_exact sampleEnv c4Req
      { userId := "builder-user", createdAt := 1 } _ rfl rfl rfl⟩

/-- C5: for every non-canvas request that is neither a dashboard request
with a logged-in session nor a builder request with a logged-in session,
the returned authorization context has no `isLoggedInToBuilder`
capability. -/
theorem C5_capability_undefined_without_session (env : Env) (request : Req)
    (ex : AuthExtract) (ctx : AuthorizationContext)
    (hex : extractAuthFromRequest env request = .ok ex)
    (hdash : isDashboard request = true → ex.sessionData = none)
    (hbuild : isBuilder request = true → ex.sessionData = none)
    (hctx : createAuthorizationContext env request = .ok ctx) :
    ctx.isLoggedInToBuilder = none := by
  obtain ⟨hc, ex', ownerId, hex', hres, hctxeq⟩ := create_ok_inv hctx
  have hexx : ex' = ex := by
    rw [hex'] at hex
    cases hex
    rfl
  subst hexx
  subst hctxeq
  dsimp only
  rw [mkIsLoggedInToBuilder]
  by_cases h1 : isBuilder request = true
  · have hn := hbuild h1
    simp [hn]
  · have h1' : isBuilder request = false := by simpa using h1
    by_cases h2 : isDashboard request = true
    · have hn := hdash h2
      simp [hn, h1']
    · have h2' : isDashboard request = false := by simpa using h2
      simp [h1', h2']

/-- Witness for C5: a sessionless dashboard request carrying a valid
token still gets no capability. -/
theorem C5_capability_undefined_witness :
    ∃ ctx, createAuthorizationContext sampleEnv
        { baseReq with queryAuthToken := some "tok" } = .ok ctx ∧
      ctx.isLoggedInToBuilder = none :=
  ⟨_, rfl,
    C5_capability_undefined_without_session sampleEnv
      { baseReq with queryAuthToken := some "tok" } _ _ rfl
      (fun _ => rfl) (fun _ => rfl) rfl⟩

/-- C10: a request whose URL carries `authToken` with an empty-string
value extracts `authToken = some ""` (the nullish-coalescing chain lets
the empty value shadow the `x-auth-token` header), and authorization-
context construction treats the token as present: it performs the
ownership lookup for the empty string, erroring when no row matches and
adopting the resolved owner otherwise. -/
theorem C10_empty_token_still_present (env : Env) (request : Req)
    (hc : isCanvas request = false)
    (hq : request.queryAuthToken = some "") :
    ∃ ex, extractAuthFromRequest env request = .ok ex ∧
      ex.authToken = some "" ∧
      (env.tokenLookup "" = none →
        createAuthorizationContext env request =
          .error (.ownerNotFoundForToken "")) ∧
      (∀ project ownerUser, env.tokenLookup "" = some project →
        project.userId = some ownerUser →
        ∃ ctx, createAuthorizationContext env request = .ok ctx ∧
          ctx.ownerId = some ownerUser) := by
  refine ⟨_, extract_ok_eq env request hc, ?_, ?_, ?_⟩
  · dsimp only
    rw [hq]
    rfl
  · intro hnone
    rw [createAuthorizationContext, if_neg (by simp [hc]),
      extract_ok_eq env request hc]
    dsimp only
    rw [hq]
    simp only [Option.some_orElse, resolveOwnerId, hnone]
  · intro project ownerUser hsome howner
    rw [createAuthorizationContext, if_neg (by simp [hc]),
      extract_ok_eq env request hc]
    dsimp only
    rw [hq]
    simp only [Option.some_orElse, resolveOwnerId, hsome, howner]
    exact ⟨_, rfl, rfl⟩

/-- Witness for C10: the empty query token shadows an `x-auth-token`
header that names a valid token, and the lookup for `""` finds no row, so
construction errors. -/
theorem C10_empty_token_still_present_witness :
    ∃ ex, extractAuthFromRequest sampleEnv
        { baseReq with
          queryAuthToken := some ""
          headerAuthToken := some "tok" } = .ok ex ∧
      ex.authToken = some "" ∧
      (sampleEnv.tokenLookup "" = none →
        createAuthorizationContext sampleEnv
            { baseReq with
              queryAuthToken := some ""
              headerAuthToken := some "tok" } =
          .error (.ownerNotFoundForToken "")) ∧
      (∀ project ownerUser, sampleEnv.tokenLookup "" = some project →
        project.userId = some ownerUser →
        ∃ ctx, createAuthorizationContext sampleEnv
            { baseReq with
              queryAuthToken := some ""
              headerAuthToken := some "tok" } = .ok ctx ∧
          ctx.ownerId = some ownerUser) :=
  C10_empty_token_still_present sampleEnv
    { baseReq with queryAuthToken := some "", headerAuthToken := some "tok" }
    rfl rfl

/-- Value stored at `p` after folding `setMaxAge p` over a nonempty list
of values: the running `Nat.min` seeded with the previously stored value
(or `maxSafeInteger`). -/
theorem setMaxAge_foldl_get (p : String) (vs : List Nat) (c : TrpcCache)
    (hne : vs ≠ []) :
    getMaxAge (vs.foldl (fun c v => setMaxAge c p v) c) p =
      some (vs.foldl Nat.min ((c p).getD maxSafeInteger)) := by
  induction vs generalizing c with
  | nil => cases hne rfl
  | cons v ws ih =>
    cases ws with
    | nil => simp [getMaxAge, setMaxAge]
    | cons w ws' =>
      rw [List.foldl_cons, ih _ (by simp)]
      congr 1
      simp [setMaxAge, getMaxAge]

/-- Folding `setMaxAge p` never touches another path. -/
theorem setMaxAge_foldl_other (p q : String) (hqp : q ≠ p) (vs : List Nat)
    (c : TrpcCache) :
    (vs.foldl (fun c v => setMaxAge c p v) c) q = c q := by
  induction vs generalizing c with
  | nil => rfl
  | cons v ws ih =>
    rw [List.foldl_cons, ih]
    simp [setMaxAge, hqp]

/-- Closed form of `getMaxAge` after a sequence of `setMaxAge` calls on a
fresh cache. -/
theorem getMaxAge_foldl_formula (p : String) (vs : List Nat) :
    getMaxAge (vs.foldl (fun c v => setMaxAge c p v) createTrpcCache) p =
      if vs = [] then none else some (vs.foldl Nat.min maxSafeInteger) := by
  cases hvs : vs with
  | nil => simp [createTrpcCache, getMaxAge]
  | cons v ws =>
    rw [setMaxAge_foldl_get p _ createTrpcCache (by simp)]
    simp [createTrpcCache]

/-- Counterexample to C6 as stated: a single `setMaxAge` call with the
value `Number.MAX_SAFE_INTEGER + 1` stores the clamp
`Math.min(Number.MAX_SAFE_INTEGER, value) = Number.MAX_SAFE_INTEGER`
rather than the minimum of the recorded values, which is the value
itself. -/
theorem C6_min_clamp_counterexample :
    getMaxAge (setMaxAge createTrpcCache "proc" 9007199254740992) "proc" =
      some 9007199254740991 ∧
    some (9007199254740991 : Nat) ≠ some (9007199254740992 : Nat) := by
  constructor <;> decide

/-- C6 amended: after any finite sequence of `setMaxAge p` calls on a
fresh cache, `getMaxAge p` equals the minimum of the recorded values
clamped from above by `Number.MAX_SAFE_INTEGER` (for values not exceeding
`Number.MAX_SAFE_INTEGER` this is exactly their minimum), the result is
independent of the order of the calls, and `getMaxAge` on a path never
set returns `undefined`. -/
theorem C6_min_wins_clamped (p : String) (vs : List Nat) :
    getMaxAge (vs.foldl (fun c v => setMaxAge c p v) createTrpcCache) p =
      (if vs = [] then none else some (vs.foldl Nat.min maxSafeInteger)) ∧
    (∀ vs₂, vs.Perm vs₂ →
      getMaxAge (vs₂.foldl (fun c v => setMaxAge c p v) createTrpcCache) p =
        getMaxAge (vs.foldl (fun c v => setMaxAge c p v) createTrpcCache) p) ∧
    (∀ q, q ≠ p →
      getMaxAge (vs.foldl (fun c v => setMaxAge c p v) createTrpcCache) q =
        none) := by
  refine ⟨getMaxAge_foldl_formula p vs, ?_, ?_⟩
  · intro vs₂ hperm
    haveI : RightCommutative Nat.min :=
      ⟨fun b a₁ a₂ => show min (min b a₁) a₂ = min (min b a₂) a₁ from
        min_right_comm b a₁ a₂⟩
    rw [getMaxAge_foldl_formula, getMaxAge_foldl_formula]
    by_cases h : vs = []
    · subst h
      have h₂ : vs₂ = [] := hperm.symm.eq_nil
      subst h₂
      rfl
    · have h₂ : vs₂ ≠ [] := fun hh => h (by subst hh; exact hperm.eq_nil)
      rw [if_neg h₂, if_neg h, hperm.foldl_eq]
  · intro q hqp
    rw [getMaxAge, setMaxAge_foldl_other p q hqp]
    rfl

/-- Witness for C6 amended: the values `[50, 10, 80]` yield `10`, and an
unset path reads `undefined`. -/
theorem C6_min_wins_clamped_witness :
    getMaxAge ([50, 10, 80].foldl (fun c v => setMaxAge c "proc" v)
        createTrpcCache) "proc" = some 10 ∧
    getMaxAge ([50, 10, 80].foldl (fun c v => setMaxAge c "proc" v)
        createTrpcCache) "other" = none := by
  obtain ⟨h1, _h2, h3⟩ := C6_min_wins_clamped "proc" [50, 10, 80]
  constructor
  · rw [h1]
    decide
  · exact h3 "other" (by decide)

/-- Concrete request for the C7 counterexample: the session resolves to
an empty-string user id. -/
def c7Req : Req :=
  { baseReq with genericSession := some { userId := "", createdAt := 0 } }

/-- Counterexample to C7 as stated: with a session whose user id is the
empty string, the owner id resolves to `some ""`, yet `userPlanFeatures`
is `undefined` rather than the plan-features lookup result, because the
empty string is falsy in the `authorization.ownerId ?` test. -/
theorem C7_empty_owner_counterexample :
    ∃ ctx, createContext sampleEnv c7Req = .ok ctx ∧
      ctx.authorization.ownerId = some "" ∧
      ctx.userPlanFeatures = none ∧
      (some (sampleEnv.getUserPlanFeatures "") : Option UserPlanFeatures) ≠
        none :=
  ⟨_, rfl, rfl, rfl, Option.some_ne_none _⟩

/-- C7 amended: the `userPlanFeatures` field of the built context is the
plan-features lookup keyed on the owner id of the authorization context
whenever a non-empty owner id was resolved, and is `undefined` when no
owner id was resolved or the resolved owner id is the empty string (which
is falsy in JavaScript). -/
theorem C7_plan_features_lookup (env : Env) (request : Req)
    (ctx : AppContext) (h : createContext env request = .ok ctx) :
    (∀ ownerId, ctx.authorization.ownerId = some ownerId → ownerId ≠ "" →
      ctx.userPlanFeatures = some (env.getUserPlanFeatures ownerId)) ∧
    (ctx.authorization.ownerId = none → ctx.userPlanFeatures = none) ∧
    (ctx.authorization.ownerId = some "" → ctx.userPlanFeatures = none) := by
  cases hca : createAuthorizationContext env request with
  | error e => rw [createContext, hca] at h; cases h
  | ok authorization =>
    rw [createContext, hca] at h
    cases h
    dsimp only
    refine ⟨?_, ?_, ?_⟩
    · intro ownerId ho hne
      simp only [createUserPlanContext, ho]
      simp [hne]
    · intro ho
      simp only [createUserPlanContext, ho]
    · intro ho
      simp only [createUserPlanContext, ho]
      simp

/-- Concrete request for the C7-amended witness. -/
def c7wReq : Req :=
  { baseReq with genericSession := some { userId := "alice", createdAt := 3 } }

/-- Witness for C7 amended: a session user `"alice"` gets the plan
features looked up for `"alice"`. -/
theorem C7_plan_features_lookup_witness :
    ∃ ctx, createContext sampleEnv c7wReq = .ok ctx ∧
      ctx.userPlanFeatures = some (sampleEnv.getUserPlanFeatures "alice") := by
  refine ⟨_, rfl, ?_⟩
  exact (C7_plan_features_lookup sampleEnv c7wReq _ rfl).1 "alice" rfl
    (by decide)

end Webstudio
